import Mathlib

/-!
Shallow embedding of the `multi_agents` agent-orchestration repository
(`src/app`): the state schema (`schema.py`), the error-containment utility
(`utils.py`), the graph nodes and wiring (`main.py`), and the four tool
adapters (`tools/api_tool.py`, `tools/retrieve_tool.py`,
`tools/graph_creator.py`, `tools/date_tool.py`).

External collaborators (the LLM, yfinance market data, pandas JSON parsing,
the matplotlib canvas, the vector-store retriever, the platform clock) are
modelled as explicit oracle parameters: each Python call that can fail is an
`Except PyErr` value supplied by the caller of the embedded function.
-/

set_option autoImplicit false

namespace MultiAgents

/-- Single-quote character, used when building string literals that contain
quotes in the Python source. -/
def squote : String := String.singleton (Char.ofNat 39)

/-! ## Messages (langchain_core.messages, as used by this repository) -/

/-- Origin tag of one chat turn (system / human / assistant / tool). -/
inductive Role where
  | system
  | human
  | assistant
  | tool
  deriving DecidableEq

/-- Tool-invocation request carried by an assistant turn: a tool name, an
argument mapping, and a call id. -/
structure ToolCall where
  name : String
  args : List (String × String)
  id : String
  deriving DecidableEq

/-- One entry of the message sequence: a role tag, text content, the pending
tool-invocation requests (assistant turns only), and, for tool-result turns,
the id of the request being answered. -/
structure Message where
  role : Role
  content : String
  tool_calls : List ToolCall
  tool_call_id : Option String
  deriving DecidableEq

/-- Message tagged as a system turn. -/
def SystemMessage (content : String) : Message :=
  ⟨Role.system, content, [], none⟩

/-- Message tagged as a human turn. -/
def HumanMessage (content : String) : Message :=
  ⟨Role.human, content, [], none⟩

/-- Message tagged as an assistant turn, optionally carrying pending
tool-invocation requests. -/
def AIMessage (content : String) (tool_calls : List ToolCall) : Message :=
  ⟨Role.assistant, content, tool_calls, none⟩

/-- Message tagged as a tool-result turn answering the request `id`. -/
def ToolMessage (content : String) (id : String) : Message :=
  ⟨Role.tool, content, [], some id⟩

/-! ## schema.py -/

/-- State of the agent system (`schema.State`): the message sequence and the
immutable original user query. -/
structure State where
  messages : List Message
  original_user_query : String
  deriving DecidableEq

/-- Error response schema (`schema.ErrorResponse`). -/
structure ErrorResponse where
  error : String
  type : String
  deriving DecidableEq

/-! ## Python exceptions and utils.py -/

/-- A raised Python exception: its `str(...)` text and its type name. -/
structure PyErr where
  msg : String
  ty : String
  deriving DecidableEq

/-- Text of the `logger.error` line emitted by `error_handler`. -/
def errorLogLine (e : PyErr) : String :=
  "An error occurred: " ++ e.msg ++ "\nType: " ++ e.ty

/-- Embedding of `utils.error_handler`: logs the error once (the emitted log
lines are returned explicitly) and returns a standardized error response. -/
def error_handler (e : PyErr) : List String × ErrorResponse :=
  ([errorLogLine e], ⟨e.msg, e.ty⟩)

/-! ## prompt.py -/

/-- Part of `REWRITER_PROMPT` before the `\x7buser_input\x7d` placeholder. -/
def REWRITER_PROMPT_head : String :=
  "\nRewrite the following user query into a clear, specific, and formal request.\nDon"
    ++ squote
    ++ "t return explanations or additional information, just the rewritten query.\nUser query:\n"

/-- Part of `REWRITER_PROMPT` after the placeholder. -/
def REWRITER_PROMPT_tail : String := "\n"

/-- The rewriting instruction template `prompt.REWRITER_PROMPT`. -/
def REWRITER_PROMPT : String :=
  REWRITER_PROMPT_head ++ "\x7buser_input\x7d" ++ REWRITER_PROMPT_tail

/-- Python `REWRITER_PROMPT.format(user_input=...)`: substitutes the query
text into the placeholder. -/
def rewriterPromptFormat (user_input : String) : String :=
  REWRITER_PROMPT_head ++ user_input ++ REWRITER_PROMPT_tail

/-- The fixed system prompt `prompt.SYSTEM_PROMPT`. -/
def SYSTEM_PROMPT : String :=
  "\nYour task is to write a concise and clear analysis answer to the user"
    ++ squote ++ "s question.\n\n- If the data comes from the stock API tool, interpret the historical stock prices and summarize the trend.\n- If the data comes from the retrieve tool:\n    - Use only the retrieved documents to answer the user"
    ++ squote ++ "s question.\n    - If an exact figure or information is not available, state clearly that the retrieved data does not provide a direct answer.\n    - Summarize the related available data points and, if appropriate, logically infer insights based on these points. Clearly explain that these insights are drawn from the available data, not definitive numbers.\n- If the user"
    ++ squote ++ "s question requires a graph, you must first extract the necessary data using the appropriate tool, and then call the graph creation tool with the extracted data to generate the graph.\n\nThe user"
    ++ squote ++ "s question could require to use one or multiple tools to answer it.\n\nRespond in fluent English.\n\nIf no data is available, say "
    ++ squote ++ "No relevant data found to answer the question." ++ squote ++ "\n"

/-! ## main.py: graph nodes

Each node takes the oracles it needs (the LLM as a function) plus the state,
and returns the updated state; `query_rewriter` additionally returns the log
lines emitted through `error_handler`. -/

/-- Embedding of `main.query_rewriter`: formats the rewriter prompt with the
original user query, invokes the LLM, and on success appends the rewritten
text as a new human turn; an LLM failure is caught, passed to
`error_handler`, and the state is returned unchanged (the step is skipped,
the run is not aborted). -/
def query_rewriter (llm : String → Except PyErr String) (st : State) :
    State × List String :=
  match llm (rewriterPromptFormat st.original_user_query) with
  | Except.ok rewritten =>
      ({ st with messages := st.messages ++ [HumanMessage rewritten] }, [])
  | Except.error e => (st, (error_handler e).1)

/-- Embedding of `main.chatbot`: invokes the tool-bound LLM on the whole
current message sequence and appends its response. -/
def chatbot (llm_with_tools : List Message → Message) (st : State) : State :=
  { st with messages := st.messages ++ [llm_with_tools st.messages] }

/-- Tool-invocation requests pending on the latest message of the state. -/
def lastToolCalls (st : State) : List ToolCall :=
  match st.messages.getLast? with
  | some m => m.tool_calls
  | none => []

/-- Modelled from the spec: langgraph's prebuilt `ToolNode` (external library
code, wired in `main.build_graph` line 107) — "for each pending
tool-invocation request on the latest assistant turn, dispatches to the named
Tool Adapter with the supplied arguments, and appends one tool-result turn
per request, preserving request order". The dispatch itself is the oracle
`execTool`. -/
def ToolNode (execTool : ToolCall → String) (st : State) : State :=
  { st with
      messages :=
        st.messages ++ (lastToolCalls st).map fun tc => ToolMessage (execTool tc) tc.id }

/-! ## main.py: graph wiring (`build_graph`) -/

/-- Nodes of the orchestration graph, including the virtual entry and end
nodes (`START`/`END` of langgraph). -/
inductive GraphNode where
  | START
  | query_rewriter
  | chatbot
  | tools
  | END
  deriving DecidableEq

/-- Modelled from the spec: langgraph's prebuilt `tools_condition` (external
library code, wired in `main.build_graph` line 111) — routes to `tools` when
the latest message carries one or more pending tool-invocation requests, and
to `END` otherwise. -/
def tools_condition (st : State) : GraphNode :=
  if lastToolCalls st = [] then GraphNode.END else GraphNode.tools

/-- Effective transition function of the compiled graph of
`main.build_graph` (lines 109-113): START → query_rewriter,
query_rewriter → chatbot, chatbot → `tools_condition`, tools → chatbot.
The redundant static edge chatbot → END of line 113 is subsumed: under the
graph library's semantics a static edge into the virtual END sink never
terminates a run while the conditional edge has scheduled a real node, so
the successor of `chatbot` is exactly the node chosen by `tools_condition`. -/
def nextNode : GraphNode → State → GraphNode
  | GraphNode.START, _ => GraphNode.query_rewriter
  | GraphNode.query_rewriter, _ => GraphNode.chatbot
  | GraphNode.chatbot, st => tools_condition st
  | GraphNode.tools, _ => GraphNode.chatbot
  | GraphNode.END, _ => GraphNode.END

/-! ## main.py: entry point (`run`) -/

/-- Initial state seeded by `main.run` (lines 155-163) before the graph is
invoked: a system turn with the fixed system prompt and a human turn with the
question, and the question as the immutable original user query. -/
def initial_state (question : String) : State :=
  ⟨[SystemMessage SYSTEM_PROMPT, HumanMessage question], question⟩

/-! ## tools/api_tool.py -/

/-- One row of the yfinance price history: the trading day (as rendered by
`strftime("%Y-%m-%d")`) and its Open/Close prices. Prices are modelled as
integers; only their serialized presence matters to the adapter. -/
structure Row where
  date : String
  openPrice : Int
  closePrice : Int
  deriving DecidableEq

/-- JSON scalar values occurring in the stock-history records. -/
inductive JVal where
  | jstr (s : String)
  | jnum (n : Int)
  deriving DecidableEq

/-- Serialization of one JSON scalar (Python `json.dumps` conventions). -/
def dumpJVal : JVal → String
  | JVal.jstr s => "\"" ++ s ++ "\""
  | JVal.jnum n => toString n

/-- Serialization of one JSON object given its ordered field list (Python
`json.dumps` default separators). -/
def dumpObj (fields : List (String × JVal)) : String :=
  "\x7b"
    ++ String.intercalate ", "
        (fields.map fun kv => "\"" ++ kv.1 ++ "\": " ++ dumpJVal kv.2)
    ++ "\x7d"

/-- Serialization of a JSON array of objects: Python
`json.dumps(result)` for `result` a list of dicts. -/
def json_dumps (records : List (List (String × JVal))) : String :=
  "[" ++ String.intercalate ", " (records.map dumpObj) ++ "]"

/-- The dict built for one history row in the loop of
`get_stock_history` (lines 41-49): insertion order date, open, close,
ticker. -/
def stockRecord (ticker : String) (r : Row) : List (String × JVal) :=
  [("date", JVal.jstr r.date), ("open", JVal.jnum r.openPrice),
   ("close", JVal.jnum r.closePrice), ("ticker", JVal.jstr ticker)]

/-- Date carried by a serialized stock record (its first field). -/
def recordDate (rec : List (String × JVal)) : String :=
  match rec.head? with
  | some ("date", JVal.jstr d) => d
  | _ => ""

/-- Fixed failure string of the stock-history adapter. -/
def stockHistoryErrorString : String :=
  "An error occurred while fetching stock history."

/-- Embedding of `api_tool.get_stock_history`: fetches the price history via
the yfinance oracle `fetch`, builds one record per row, and returns the JSON
serialization; any fault is caught, handed to `error_handler` (the emitted
log lines are the second component) and converted to the fixed failure
string. -/
def get_stock_history (fetch : String → String → String → Except PyErr (List Row))
    (ticker startDate endDate : String) : String × List String :=
  match fetch ticker startDate endDate with
  | Except.ok history => (json_dumps (history.map (stockRecord ticker)), [])
  | Except.error e => (stockHistoryErrorString, (error_handler e).1)

/-! ## tools/retrieve_tool.py -/

/-- Fixed failure string of the document-retrieval adapter. -/
def retrieveErrorString : String :=
  "An error occurred while retrieving documents."

/-- Embedding of `retrieve_tool.retrieve`: obtains documents from the
vector-store oracle `retriever` (which also stands for `get_retriever`, both
being inside the `try` block) and newline-joins them with a `- ` bullet; any
fault is caught, handed to `error_handler` and converted to the fixed
failure string. -/
def retrieve (retriever : String → Except PyErr (List String))
    (question : String) : String × List String :=
  match retriever question with
  | Except.ok documents =>
      (String.intercalate "\n" (documents.map fun doc => "- " ++ doc), [])
  | Except.error e => (retrieveErrorString, (error_handler e).1)

/-! ## tools/graph_creator.py -/

/-- A parsed tabular dataset (`pd.read_json` result): ordered association of
column name to column values. Cell values are modelled as integers. -/
def Frame : Type := List (String × List Int)

/-- Column access `df[c]`: raises `KeyError` when the column is missing. -/
def getCol (df : Frame) (c : String) : Except PyErr (List Int) :=
  match df.find? (fun kv => kv.1 == c) with
  | some kv => Except.ok kv.2
  | none => Except.error ⟨c, "KeyError"⟩

/-- One data series actually handed to the plotting backend
(`plt.bar` / `plt.plot`). -/
structure Series where
  kind : String
  label : String
  xs : List Int
  ys : List Int
  deriving DecidableEq

/-- One iteration's rendering (`plt.bar` / `plt.plot` branches of lines
44-47): renders a bar or line series from the dataset's columns; for any
other `graph_type` neither branch runs and nothing is rendered. A missing
column raises. -/
def plotOne (df : Frame) (graph_type x_axis y_axis label : String) :
    Except PyErr (List Series) :=
  if graph_type = "bar" then
    match getCol df x_axis with
    | Except.error e => Except.error e
    | Except.ok xs =>
        match getCol df y_axis with
        | Except.error e => Except.error e
        | Except.ok ys => Except.ok [Series.mk "bar" label xs ys]
  else if graph_type = "line" then
    match getCol df x_axis with
    | Except.error e => Except.error e
    | Except.ok xs =>
        match getCol df y_axis with
        | Except.error e => Except.error e
        | Except.ok ys => Except.ok [Series.mk "line" label xs ys]
  else Except.ok []

/-- The `for idx, d in enumerate(data)` loop of `create_graph`
(lines 41-47): parses each dataset, picks the label
(`labels[idx] if labels and idx < len(labels) else f"data\x7bidx+1\x7d"`),
and renders via `plotOne`. Returns the rendered series in order, or the
first raised fault. -/
def plotSeries (parse : String → Except PyErr Frame)
    (graph_type x_axis y_axis : String) (labels : List String) :
    List String → Nat → Except PyErr (List Series)
  | [], _ => Except.ok []
  | d :: rest, idx =>
      match parse d with
      | Except.error e => Except.error e
      | Except.ok df =>
          let label :=
            if labels ≠ [] ∧ idx < labels.length then labels.getD idx ""
            else "data" ++ toString (idx + 1)
          match plotOne df graph_type x_axis y_axis label with
          | Except.error e => Except.error e
          | Except.ok here =>
              match plotSeries parse graph_type x_axis y_axis labels rest (idx + 1) with
              | Except.error e => Except.error e
              | Except.ok restSeries => Except.ok (here ++ restSeries)

/-- Body of the `try` block of `create_graph`: the plotting loop followed by
`plt.savefig("graph.png")`, whose possible environment fault is the oracle
`save`. -/
def createGraphBody (parse : String → Except PyErr Frame)
    (save : Except PyErr Unit) (graph_type : String) (data : List String)
    (x_axis y_axis : String) (labels : List String) :
    Except PyErr (List Series) :=
  match plotSeries parse graph_type x_axis y_axis labels data 0 with
  | Except.error e => Except.error e
  | Except.ok series =>
      match save with
      | Except.error e => Except.error e
      | Except.ok _ => Except.ok series

/-- Success string of `create_graph` (line 55). -/
def graphSuccessString (graph_title graph_type : String) : String :=
  graph_title ++ ": Graph of type " ++ squote ++ graph_type ++ squote
    ++ " created successfully."

/-- Failure string of `create_graph` (line 58): a fixed prefix followed by
`str(e)` of the caught exception. -/
def graphErrorString (e : PyErr) : String :=
  "An error occurred while creating the graph: " ++ e.msg

/-- Embedding of `graph_creator.create_graph`: returns the result string,
the log lines emitted through `error_handler`, and the series actually
rendered. On success the success string names the title and kind; any fault
is caught, handed to `error_handler`, and converted to the failure string
carrying the fault text. -/
def create_graph (parse : String → Except PyErr Frame)
    (save : Except PyErr Unit) (graph_type : String) (data : List String)
    (graph_title x_axis y_axis : String) (labels : List String) :
    String × List String × List Series :=
  match createGraphBody parse save graph_type data x_axis y_axis labels with
  | Except.ok series => (graphSuccessString graph_title graph_type, [], series)
  | Except.error e => (graphErrorString e, (error_handler e).1, [])

/-! ## tools/date_tool.py -/

/-- A calendar date as held by the platform clock. -/
structure SimpleDate where
  year : Nat
  month : Nat
  day : Nat
  deriving DecidableEq

/-- Zero-pad a number to two digits (strftime `%m` / `%d`). -/
def pad2 (n : Nat) : String :=
  if n < 10 then "0" ++ toString n else toString n

/-- Zero-pad a year to four digits (strftime `%Y`). -/
def pad4 (n : Nat) : String :=
  if n < 10 then "000" ++ toString n
  else if n < 100 then "00" ++ toString n
  else if n < 1000 then "0" ++ toString n
  else toString n

/-- Model of the platform `strftime` over a format-string character list:
supports the `%Y`, `%m`, `%d` directives and literal characters; any other
`%` directive raises (directive support is platform-dependent in CPython,
and this is the formatting-failure channel the adapter guards against). -/
def strftime (d : SimpleDate) : List Char → Except PyErr String
  | [] => Except.ok ""
  | '%' :: c :: rest =>
      match (match c with
        | 'Y' => Except.ok (pad4 d.year)
        | 'm' => Except.ok (pad2 d.month)
        | 'd' => Except.ok (pad2 d.day)
        | _ => Except.error ⟨"Invalid format string", "ValueError"⟩ : Except PyErr String) with
      | Except.ok piece =>
          match strftime d rest with
          | Except.ok tail => Except.ok (piece ++ tail)
          | Except.error e => Except.error e
      | Except.error e => Except.error e
  | ['%'] => Except.error ⟨"Invalid format string", "ValueError"⟩
  | c :: rest =>
      match strftime d rest with
      | Except.ok tail => Except.ok (String.singleton c ++ tail)
      | Except.error e => Except.error e

/-- Default date format of the date adapter (`DateArgs.format` default and
the hard-coded fallback format). -/
def defaultDateFormat : String := "%Y-%m-%d"

/-- The fallback value `date.today().strftime("%Y-%m-%d")`: formatting with
the fixed default pattern, which never fails (see `strftime_default`). -/
def formatDefault (d : SimpleDate) : String :=
  pad4 d.year ++ "-" ++ pad2 d.month ++ "-" ++ pad2 d.day

/-- Embedding of `date_tool.get_current_date`: formats today's date with the
supplied format; a formatting fault is caught, handed to `error_handler`,
and the adapter falls back to today's date in the fixed default format. -/
def get_current_date (today : SimpleDate) (format : String) :
    String × List String :=
  match strftime today format.data with
  | Except.ok s => (s, [])
  | Except.error e => (formatDefault today, (error_handler e).1)

/-! ## Theorems about the orchestration graph -/

/-- C1: the orchestration graph reaches `END` exactly when the latest
chatbot-produced assistant turn carries no pending tool-invocation requests;
when it does carry pending requests, the successor of `chatbot` is `tools`
and not `END`; and no node other than `chatbot` (or `END` itself) ever
transitions to `END`. -/
theorem chatbot_to_end_iff_no_pending (llm : List Message → Message) (st : State) :
    (nextNode GraphNode.chatbot (chatbot llm st) = GraphNode.END ↔
      (llm st.messages).tool_calls = [])
    ∧ ((llm st.messages).tool_calls ≠ [] →
        nextNode GraphNode.chatbot (chatbot llm st) = GraphNode.tools
        ∧ nextNode GraphNode.chatbot (chatbot llm st) ≠ GraphNode.END)
    ∧ (∀ (n : GraphNode) (st2 : State), nextNode n st2 = GraphNode.END →
        n = GraphNode.chatbot ∨ n = GraphNode.END) := by
  have hlast : lastToolCalls (chatbot llm st) = (llm st.messages).tool_calls := by
    simp [lastToolCalls, chatbot]
  refine ⟨?_, ?_, ?_⟩
  · by_cases h : (llm st.messages).tool_calls = [] <;>
      simp [nextNode, tools_condition, hlast, h]
  · intro h
    constructor <;> simp [nextNode, tools_condition, hlast, h]
  · intro n st2 h
    cases n <;> simp_all [nextNode, tools_condition]

/-- Witness for C1: with a chatbot output carrying one pending request, the
graph transitions from `chatbot` to `tools`. -/
theorem chatbot_to_end_iff_no_pending_witness :
    nextNode GraphNode.chatbot
        (chatbot (fun _ => AIMessage "" [⟨"get_current_date", [], "call1"⟩]) ⟨[], "q"⟩)
      = GraphNode.tools :=
  ((chatbot_to_end_iff_no_pending
      (fun _ => AIMessage "" [⟨"get_current_date", [], "call1"⟩]) ⟨[], "q"⟩).2.1
    (by decide)).1

/-- C2: when the rewriter LLM fails, `query_rewriter` catches the fault,
logs it through `error_handler`, and returns the state unchanged (the
original query stays intact, nothing is appended); when the LLM succeeds,
exactly one new human turn with the rewritten query is appended; in both
cases the graph proceeds from `query_rewriter` to `chatbot`. -/
theorem query_rewriter_error_containment
    (llm : String → Except PyErr String) (st : State) :
    (∀ e, llm (rewriterPromptFormat st.original_user_query) = Except.error e →
        query_rewriter llm st = (st, [errorLogLine e]))
    ∧ (∀ r, llm (rewriterPromptFormat st.original_user_query) = Except.ok r →
        query_rewriter llm st =
          ({ st with messages := st.messages ++ [HumanMessage r] }, []))
    ∧ nextNode GraphNode.query_rewriter st = GraphNode.chatbot := by
  refine ⟨?_, ?_, rfl⟩ <;> intro x hx <;>
    simp [query_rewriter, hx, error_handler]

/-- Witness for C2: a concrete failing rewriter LLM leaves the seeded state
unchanged and produces exactly the one error-handler log line. -/
theorem query_rewriter_error_containment_witness :
    query_rewriter (fun _ => Except.error ⟨"quota exceeded", "ResourceExhausted"⟩)
        (initial_state "hello")
      = (initial_state "hello",
          [errorLogLine ⟨"quota exceeded", "ResourceExhausted"⟩]) :=
  (query_rewriter_error_containment _ _).1 _ rfl

/-- C3: for the pending tool-invocation requests on the latest assistant
turn, the tools step appends exactly one tool-result turn per request,
in request order (the appended suffix is the ordered map of the request
list). -/
theorem ToolNode_one_result_per_request (execTool : ToolCall → String)
    (st : State) (m : Message) (hm : st.messages.getLast? = some m) :
    (ToolNode execTool st).messages
      = st.messages ++ m.tool_calls.map (fun tc => ToolMessage (execTool tc) tc.id)
    ∧ (ToolNode execTool st).messages.length
      = st.messages.length + m.tool_calls.length := by
  have h : lastToolCalls st = m.tool_calls := by simp [lastToolCalls, hm]
  constructor <;> simp [ToolNode, h]

/-- Witness for C3: two pending requests yield exactly two tool-result turns
in request order. -/
theorem ToolNode_one_result_per_request_witness :
    (ToolNode (fun tc => tc.name)
        ⟨[AIMessage "calling"
            [⟨"get_current_date", [], "a1"⟩, ⟨"retrieve_documents", [], "a2"⟩]], "q"⟩).messages
      = [AIMessage "calling"
            [⟨"get_current_date", [], "a1"⟩, ⟨"retrieve_documents", [], "a2"⟩],
         ToolMessage "get_current_date" "a1", ToolMessage "retrieve_documents" "a2"] := by
  have h := (ToolNode_one_result_per_request (fun tc => tc.name)
      ⟨[AIMessage "calling"
          [⟨"get_current_date", [], "a1"⟩, ⟨"retrieve_documents", [], "a2"⟩]], "q"⟩
      (AIMessage "calling"
          [⟨"get_current_date", [], "a1"⟩, ⟨"retrieve_documents", [], "a2"⟩]) rfl).1
  simpa [AIMessage, ToolMessage] using h

/-- C4: every node of one run (`query_rewriter`, `chatbot`, `tools`) leaves
`original_user_query` unchanged and only appends to `messages` (the new
message list is the old one followed by some suffix). -/
theorem nodes_preserve_query_append_only
    (llmR : String → Except PyErr String) (llmC : List Message → Message)
    (execTool : ToolCall → String) (st : State) :
    ((query_rewriter llmR st).1.original_user_query = st.original_user_query
      ∧ ∃ tail, (query_rewriter llmR st).1.messages = st.messages ++ tail)
    ∧ ((chatbot llmC st).original_user_query = st.original_user_query
      ∧ ∃ tail, (chatbot llmC st).messages = st.messages ++ tail)
    ∧ ((ToolNode execTool st).original_user_query = st.original_user_query
      ∧ ∃ tail, (ToolNode execTool st).messages = st.messages ++ tail) := by
  refine ⟨⟨?_, ?_⟩, ⟨rfl, _, rfl⟩, ⟨rfl, _, rfl⟩⟩
  · cases h : llmR (rewriterPromptFormat st.original_user_query) <;>
      simp [query_rewriter, h]
  · cases h : llmR (rewriterPromptFormat st.original_user_query) with
    | ok r => exact ⟨[HumanMessage r], by simp [query_rewriter, h]⟩
    | error e => exact ⟨[], by simp [query_rewriter, h]⟩

/-- C9: the entry point seeds the state with exactly a system turn carrying
the fixed system prompt and a human turn carrying the question verbatim, and
after a successful rewrite the message sequence contains both the original
question and the rewritten query as human turns. -/
theorem run_seeds_two_turns (question : String) :
    (initial_state question).messages
      = [SystemMessage SYSTEM_PROMPT, HumanMessage question]
    ∧ (initial_state question).original_user_query = question
    ∧ ∀ (llm : String → Except PyErr String) (r : String),
        llm (rewriterPromptFormat question) = Except.ok r →
        (query_rewriter llm (initial_state question)).1.messages
          = [SystemMessage SYSTEM_PROMPT, HumanMessage question, HumanMessage r] := by
  refine ⟨rfl, rfl, ?_⟩
  intro llm r h
  simp [query_rewriter, initial_state, h]

/-- Witness for C9: a concrete successful rewrite leaves the original human
turn in place and appends the rewritten query as a second human turn. -/
theorem run_seeds_two_turns_witness :
    (query_rewriter (fun _ => Except.ok "rewritten")
        (initial_state "hi")).1.messages
      = [SystemMessage SYSTEM_PROMPT, HumanMessage "hi", HumanMessage "rewritten"] :=
  (run_seeds_two_turns "hi").2.2 _ "rewritten" rfl

/-! ## Theorems about the tool adapters -/

/-- C5: on a successful fetch the stock-history adapter returns the JSON
serialization of one record per trading day; every record carries exactly
the fields date, open, close, ticker in that order, with ticker equal to
the input ticker; and when the fetched rows are in ascending date order
(as yfinance delivers them), so are the serialized records. -/
theorem get_stock_history_records
    (fetch : String → String → String → Except PyErr (List Row))
    (ticker startDate endDate : String) (rows : List Row)
    (hf : fetch ticker startDate endDate = Except.ok rows)
    (hsorted : rows.Chain' fun a b => a.date < b.date) :
    (get_stock_history fetch ticker startDate endDate).1
      = json_dumps (rows.map (stockRecord ticker))
    ∧ (rows.map (stockRecord ticker)).length = rows.length
    ∧ (∀ rec ∈ rows.map (stockRecord ticker),
        rec.map (fun kv => kv.1) = ["date", "open", "close", "ticker"]
        ∧ ("ticker", JVal.jstr ticker) ∈ rec)
    ∧ ((rows.map (stockRecord ticker)).map recordDate).Chain' (fun a b => a < b) := by
  refine ⟨by simp [get_stock_history, hf], by simp, ?_, ?_⟩
  · intro rec hrec
    simp only [List.mem_map] at hrec
    obtain ⟨r, _, hr⟩ := hrec
    subst hr
    constructor <;> simp [stockRecord]
  · rw [List.map_map, List.chain'_map]
    simpa [recordDate, stockRecord] using hsorted

/-- Witness for C5: a concrete one-day fetch for RNO.PA over
2023-01-01..2023-01-02 serializes to the expected JSON array. -/
theorem get_stock_history_records_witness :
    (get_stock_history (fun _ _ _ => Except.ok [Row.mk "2023-01-01" 33 34])
        "RNO.PA" "2023-01-01" "2023-01-02").1
      = json_dumps ([Row.mk "2023-01-01" 33 34].map (stockRecord "RNO.PA")) :=
  (get_stock_history_records _ "RNO.PA" "2023-01-01" "2023-01-02"
      [Row.mk "2023-01-01" 33 34] rfl (by simp)).1

/-- C10: on a valid range containing no trading days the stock-history
adapter returns the string `[]` (the JSON encoding of the empty array),
which is distinct from its failure string, instead of failing. -/
theorem get_stock_history_empty_range
    (fetch : String → String → String → Except PyErr (List Row))
    (ticker startDate endDate : String)
    (h : fetch ticker startDate endDate = Except.ok []) :
    (get_stock_history fetch ticker startDate endDate).1 = "[]"
    ∧ (get_stock_history fetch ticker startDate endDate).1
        ≠ stockHistoryErrorString := by
  have h1 : (get_stock_history fetch ticker startDate endDate).1 = "[]" := by
    simp only [get_stock_history, h]
    rfl
  exact ⟨h1, by rw [h1]; decide⟩

/-- Witness for C10: a concrete fetch with no trading days in range. -/
theorem get_stock_history_empty_range_witness :
    (get_stock_history (fun _ _ _ => Except.ok []) "RNO.PA" "2023-01-01"
        "2023-01-02").1 = "[]"
    ∧ (get_stock_history (fun _ _ _ => Except.ok []) "RNO.PA" "2023-01-01"
        "2023-01-02").1 ≠ stockHistoryErrorString :=
  get_stock_history_empty_range _ "RNO.PA" "2023-01-01" "2023-01-02" rfl

/-- C6 counterexample: the failure string of the graph-creation adapter is
not fixed — two different internal faults on the same call yield two
different returned strings, because the string embeds `str(e)`. -/
theorem create_graph_failure_string_not_fixed :
    (create_graph (fun _ => Except.error ⟨"boom", "ValueError"⟩) (Except.ok ())
        "bar" ["x"] "T" "year" "sales" []).1
      ≠ (create_graph (fun _ => Except.error ⟨"bang", "TypeError"⟩) (Except.ok ())
        "bar" ["x"] "T" "year" "sales" []).1 := by decide

/-- C6 (amended): for every adapter and every internal fault, the fault is
recorded exactly once via `error_handler` and the adapter returns a string
instead of re-raising; stock history and document retrieval return their
fixed failure strings, the graph adapter returns the fixed failure prefix
followed by the fault text, and the date adapter falls back to today's date
in the default format. -/
theorem adapters_error_containment
    (fetch : String → String → String → Except PyErr (List Row))
    (ticker startDate endDate : String)
    (retriever : String → Except PyErr (List String)) (question : String)
    (parse : String → Except PyErr Frame) (save : Except PyErr Unit)
    (graph_type : String) (data : List String)
    (graph_title x_axis y_axis : String) (labels : List String)
    (today : SimpleDate) (fmt : String) (err : PyErr) :
    (fetch ticker startDate endDate = Except.error err →
        get_stock_history fetch ticker startDate endDate
          = (stockHistoryErrorString, [errorLogLine err]))
    ∧ (retriever question = Except.error err →
        retrieve retriever question
          = (retrieveErrorString, [errorLogLine err]))
    ∧ (createGraphBody parse save graph_type data x_axis y_axis labels
          = Except.error err →
        create_graph parse save graph_type data graph_title x_axis y_axis labels
          = (graphErrorString err, [errorLogLine err], []))
    ∧ (strftime today fmt.data = Except.error err →
        get_current_date today fmt = (formatDefault today, [errorLogLine err])) := by
  refine ⟨?_, ?_, ?_, ?_⟩ <;> intro h <;>
    simp [get_stock_history, retrieve, create_graph, get_current_date, h,
      error_handler]

/-- Witness for C6 (amended): a concrete retriever fault yields the fixed
failure string and exactly one error-handler log line. -/
theorem adapters_error_containment_witness :
    retrieve (fun _ => Except.error ⟨"db missing", "ValueError"⟩) "q"
      = (retrieveErrorString, [errorLogLine ⟨"db missing", "ValueError"⟩]) :=
  (adapters_error_containment
      (fun _ _ _ => Except.ok []) "RNO.PA" "2023-01-01" "2023-01-02"
      (fun _ => Except.error ⟨"db missing", "ValueError"⟩) "q"
      (fun _ => Except.ok []) (Except.ok ()) "bar" [] "T" "x" "y" []
      ⟨2023, 1, 1⟩ "%Y" ⟨"db missing", "ValueError"⟩).2.1 rfl

/-- Auxiliary for C7: with an unsupported graph kind and parseable datasets,
the plotting loop renders no series and raises nothing. -/
theorem plotSeries_unsupported (parse : String → Except PyErr Frame)
    (graph_type x_axis y_axis : String) (labels : List String)
    (hb : graph_type ≠ "bar") (hl : graph_type ≠ "line") :
    ∀ (data : List String) (idx : Nat),
      (∀ d ∈ data, ∃ df, parse d = Except.ok df) →
      plotSeries parse graph_type x_axis y_axis labels data idx
        = Except.ok [] := by
  intro data
  induction data with
  | nil => intro idx _; rfl
  | cons d rest ih =>
      intro idx h
      obtain ⟨df, hdf⟩ := h d (by simp)
      have hrest := ih (idx + 1) fun d2 hd2 => h d2 (by simp [hd2])
      simp [plotSeries, hdf, plotOne, hb, hl, hrest]

/-- C7: for a graph kind outside the supported set, with parseable datasets
and a healthy canvas, the adapter renders no data series yet returns the
very same success string (naming the title and the kind) that a supported
kind would produce. -/
theorem create_graph_unsupported_kind (parse : String → Except PyErr Frame)
    (graph_type : String) (data : List String)
    (graph_title x_axis y_axis : String) (labels : List String)
    (hb : graph_type ≠ "bar") (hl : graph_type ≠ "line")
    (hp : ∀ d ∈ data, ∃ df, parse d = Except.ok df) :
    create_graph parse (Except.ok ()) graph_type data graph_title x_axis
        y_axis labels
      = (graphSuccessString graph_title graph_type, [], []) := by
  have h := plotSeries_unsupported parse graph_type x_axis y_axis labels
    hb hl data 0 hp
  simp [create_graph, createGraphBody, h]

/-- Witness for C7: kind "pie" with one well-formed dataset reports the same
success shape while rendering nothing. -/
theorem create_graph_unsupported_kind_witness :
    create_graph (fun _ => Except.ok [("year", [2020, 2021]), ("sales", [1000, 1100])])
        (Except.ok ()) "pie" ["dataset"] "Sales" "year" "sales" []
      = (graphSuccessString "Sales" "pie", [], []) :=
  create_graph_unsupported_kind _ "pie" _ "Sales" "year" "sales" []
    (by decide) (by decide) (fun d _ => ⟨_, rfl⟩)

/-- Auxiliary for C8: formatting with the fixed default pattern never fails
and yields the zero-padded `YYYY-MM-DD` rendering. -/
theorem strftime_default (d : SimpleDate) :
    strftime d defaultDateFormat.data = Except.ok (formatDefault d) := by
  show strftime d ['%', 'Y', '-', '%', 'm', '-', '%', 'd']
      = Except.ok (formatDefault d)
  simp [strftime, formatDefault, String.append_empty, String.append_assoc]
  rfl

/-- C8: the date adapter returns today's date as `YYYY-MM-DD` under the
default format, honors the `%m/%d/%Y` pattern, and on a formatting failure
falls back to today's date in the fixed default format instead of raising. -/
theorem get_current_date_spec (today : SimpleDate) :
    get_current_date today defaultDateFormat = (formatDefault today, [])
    ∧ (get_current_date today "%m/%d/%Y").1
        = pad2 today.month ++ "/" ++ pad2 today.day ++ "/" ++ pad4 today.year
    ∧ ∀ (fmt : String) (e : PyErr), strftime today fmt.data = Except.error e →
        get_current_date today fmt = (formatDefault today, [errorLogLine e]) := by
  refine ⟨?_, ?_, ?_⟩
  · simp [get_current_date, strftime_default]
  · have h2 : strftime today "%m/%d/%Y".data
        = Except.ok (pad2 today.month ++ "/" ++ pad2 today.day ++ "/" ++ pad4 today.year) := by
      show strftime today ['%', 'm', '/', '%', 'd', '/', '%', 'Y'] = _
      simp [strftime, String.append_empty, String.append_assoc]
      rfl
    simp [get_current_date, h2]
  · intro fmt e h
    simp [get_current_date, h, error_handler]

/-- Witness for C8 (via the failure hypothesis of the third conjunct): an
unsupported `%q` directive makes the adapter fall back to the default
format. -/
theorem get_current_date_spec_witness :
    get_current_date ⟨2026, 10, 12⟩ "%q"
      = (formatDefault ⟨2026, 10, 12⟩,
          [errorLogLine ⟨"Invalid format string", "ValueError"⟩]) :=
  (get_current_date_spec ⟨2026, 10, 12⟩).2.2 "%q"
    ⟨"Invalid format string", "ValueError"⟩ rfl

end MultiAgents
